import Mathlib

/-!
Verification of the path-authorization engine of the collabup backend
(`src/server.js`), together with the two signed-URL request handlers that
invoke it.  The JavaScript string primitives `startsWith` and `includes`
are embedded as executable functions over the character lists of Lean
strings, and `isPathAllowedForRole` is translated branch for branch.
-/

namespace CollabUp

/-- Embedding of JavaScript `s.startsWith(p)`: the character list of `p`
is a prefix of the character list of `s`. -/
def jsStartsWith (s p : String) : Bool :=
  p.data.isPrefixOf s.data

/-- Substring scan over character lists: `listContainsSub sub l` is true
exactly when `sub` occurs contiguously somewhere in `l`.  This is the
semantics of JavaScript `String.prototype.includes`. -/
def listContainsSub (sub : List Char) : List Char → Bool
  | [] => sub.isPrefixOf []
  | c :: rest => sub.isPrefixOf (c :: rest) || listContainsSub sub rest

/-- Embedding of JavaScript `s.includes(sub)`. -/
def jsIncludes (s sub : String) : Bool :=
  listContainsSub sub.data s.data

/-- The `baseByRole` object literal inside `isPathAllowedForRole`
(src/server.js lines 117-138); the `baseByRole[role] || []` lookup is the
final `[]` branch for unknown roles. -/
def baseByRole (role uid : String) : List String :=
  if role = "student" then
    ["users/students/" ++ uid ++ "/", "projects/student-projects/"]
  else if role = "faculty" then
    ["users/faculty/" ++ uid ++ "/", "projects/research-projects/"]
  else if role = "mentor" then
    ["users/mentors/" ++ uid ++ "/"]
  else if role = "startup" then
    ["users/startups/" ++ uid ++ "/", "projects/startup-projects/"]
  else if role = "admin" then
    ["users/admins/" ++ uid ++ "/", "projects/", "users/"]
  else []

/-- The `legacy` array inside `isPathAllowedForRole` (src/server.js lines
141-147): prefixes kept for compatibility while migrating paths. -/
def legacy (uid : String) : List String :=
  ["profile-pictures/" ++ uid ++ "/", "id-documents/" ++ uid ++ "/",
   "enrollments/" ++ uid ++ "/", "project-files/"]

/-- `allowedPrefixes` inside `isPathAllowedForRole` (src/server.js line
149). -/
def allowedPrefixes (role uid : String) : List String :=
  baseByRole role uid ++ legacy uid

/-- Embedding of `isPathAllowedForRole(role, uid, objectPath)`
(src/server.js lines 116-157). -/
def isPathAllowedForRole (role uid objectPath : String) : Bool :=
  let hasAllowed := (allowedPrefixes role uid).any (fun p => jsStartsWith objectPath p)
  if !hasAllowed then false
  else
    let includesUid := jsIncludes objectPath uid
    if role != "admin" && !includesUid then false
    else true

/-- The action a signed URL grants. -/
inductive SignAction where
  | write
  | read
deriving DecidableEq

/-- The observable outcome of a signed-URL handler: HTTP status, the error
message (if any), and the object path and action passed to the storage
signing call (`none` when signing was never invoked). -/
structure HandlerResult where
  status : Nat
  error : Option String
  signedPath : Option (String × SignAction)
deriving DecidableEq

/-- JavaScript truthiness of an optional string: absent and `""` are
falsy. -/
def truthyStr : Option String → Bool
  | none => false
  | some s => !(s == "")

/-- Embedding of the `POST /signed-url` handler body after authentication
(src/server.js lines 162-205).  `role` stands for the awaited
`getUserRole(uid)` result; the signing call itself is external, so the
result records the path and action it would be given. -/
def signedUrlHandler (bucketName objectPath contentType uid : Option String)
    (role : String) : HandlerResult :=
  if !truthyStr bucketName then
    { status := 500, error := some "BUCKET_NAME env var not set", signedPath := none }
  else if !truthyStr objectPath || !truthyStr contentType then
    { status := 400, error := some "objectPath and contentType are required", signedPath := none }
  else if !truthyStr uid then
    { status := 401, error := some "Unauthenticated", signedPath := none }
  else if !isPathAllowedForRole role (uid.getD "") (objectPath.getD "") then
    { status := 403, error := some "Upload path not allowed for your role", signedPath := none }
  else
    { status := 200, error := none, signedPath := some (objectPath.getD "", SignAction.write) }

/-- Embedding of the `POST /signed-url-read` handler body after
authentication (src/server.js lines 209-240). -/
def signedUrlReadHandler (bucketName objectPath uid : Option String)
    (role : String) : HandlerResult :=
  if !truthyStr bucketName then
    { status := 500, error := some "BUCKET_NAME env var not set", signedPath := none }
  else if !truthyStr objectPath then
    { status := 400, error := some "objectPath is required", signedPath := none }
  else if !truthyStr uid then
    { status := 401, error := some "Unauthenticated", signedPath := none }
  else if !isPathAllowedForRole role (uid.getD "") (objectPath.getD "") then
    { status := 403, error := some "Read path not allowed for your role", signedPath := none }
  else
    { status := 200, error := none, signedPath := some (objectPath.getD "", SignAction.read) }

/-! Structural lemmas about the embedding. -/

/-- `isPathAllowedForRole` unfolded into its two checks: some allowed
prefix matches, and non-admins must have the uid inside the path. -/
lemma allowed_iff (role uid objectPath : String) :
    isPathAllowedForRole role uid objectPath = true ↔
      ((allowedPrefixes role uid).any (fun p => jsStartsWith objectPath p) = true ∧
        (role = "admin" ∨ jsIncludes objectPath uid = true)) := by
  unfold isPathAllowedForRole
  cases hA : (allowedPrefixes role uid).any (fun p => jsStartsWith objectPath p) <;>
    cases hI : jsIncludes objectPath uid <;>
    by_cases hR : role = "admin" <;>
    simp [hA, hI, hR]

/-- A single matching member makes `List.any` true. -/
lemma any_of_mem (l : List String) (p q : String) (hq : q ∈ l)
    (h : jsStartsWith p q = true) : l.any (fun x => jsStartsWith p x) = true :=
  List.any_eq_true.mpr ⟨q, hq, h⟩

/-- Starting with a longer string implies starting with any prefix of it. -/
lemma jsStartsWith_mono (s a b : String) (hab : a.data <+: b.data)
    (h : jsStartsWith s b = true) : jsStartsWith s a = true := by
  unfold jsStartsWith at *
  rw [ List.isPrefixOf_iff_prefix] at *
  exact hab.trans h

/-- Appending on the right preserves the string-prefix relation. -/
lemma data_prefix_append (a b c : String) (hab : a.data <+: b.data) :
    a.data <+: (b ++ c).data := by
  rw [String.data_append]
  exact hab.trans ( List.prefix_append b.data c.data)

/-- A list beginning with `sub` contains `sub`. -/
lemma listContainsSub_of_isPrefixOf (sub l : List Char)
    (h : sub.isPrefixOf l = true) : listContainsSub sub l = true := by
  cases l with
  | nil => simpa [listContainsSub] using h
  | cons c rest => simp [listContainsSub, h]

/-- Containment is preserved by adding a character in front. -/
lemma listContainsSub_cons (sub : List Char) (c : Char) (l : List Char)
    (h : listContainsSub sub l = true) : listContainsSub sub (c :: l) = true := by
  simp [listContainsSub, h]

/-- Containment is preserved by appending on the left. -/
lemma listContainsSub_append_left (sub a l : List Char)
    (h : listContainsSub sub l = true) : listContainsSub sub (a ++ l) = true := by
  induction a with
  | nil => simpa using h
  | cons c t ih => simpa using listContainsSub_cons sub c (t ++ l) ih

/-- A string assembled as `a ++ u ++ b` contains `u`. -/
lemma jsIncludes_append_mid (a u b : String) :
    jsIncludes (a ++ u ++ b) u = true := by
  unfold jsIncludes
  rw [String.data_append, String.data_append, List.append_assoc]
  apply listContainsSub_append_left
  apply listContainsSub_of_isPrefixOf
  rw [ List.isPrefixOf_iff_prefix]
  exact List.prefix_append u.data b.data

/-- The broad `users/` prefix is in admin's allowed set. -/
lemma admin_any_of_users (u p : String) (h : jsStartsWith p "users/" = true) :
    (allowedPrefixes "admin" u).any (fun x => jsStartsWith p x) = true :=
  any_of_mem _ _ "users/" (by simp [allowedPrefixes, baseByRole, legacy]) h

/-- The broad `projects/` prefix is in admin's allowed set. -/
lemma admin_any_of_projects (u p : String) (h : jsStartsWith p "projects/" = true) :
    (allowedPrefixes "admin" u).any (fun x => jsStartsWith p x) = true :=
  any_of_mem _ _ "projects/" (by simp [allowedPrefixes, baseByRole, legacy]) h

/-- A path under a role directory `b ++ u ++ "/"` whose literal head `b`
begins with `users/` is itself under `users/`. -/
lemma startsWith_users_of_role_dir (p b u : String)
    (hb : ("users/" : String).data.isPrefixOf b.data = true)
    (h : jsStartsWith p (b ++ u ++ "/") = true) : jsStartsWith p "users/" = true :=
  jsStartsWith_mono p "users/" (b ++ u ++ "/")
    (data_prefix_append _ _ _ (data_prefix_append _ _ _
      ( List.isPrefixOf_iff_prefix.mp hb))) h

/-! Claim theorems. -/

/-- Claim C1: for every non-admin role `r`, uid `u` and object path `p`,
if `isPathAllowedForRole r u p` returns true then `p` starts with at
least one prefix of `r`'s allowed prefix set (role-specific union legacy)
and `p` contains `u` as a substring; contrapositively, a path not
containing `u` is always denied to a non-admin. -/
theorem nonadmin_allowed_implies_prefix_and_uid (r u p : String) (hr : r ≠ "admin")
    (h : isPathAllowedForRole r u p = true) :
    (allowedPrefixes r u).any (fun P => jsStartsWith p P) = true ∧
      jsIncludes p u = true := by
  rcases (allowed_iff r u p).mp h with ⟨h1, h2⟩
  exact ⟨h1, h2.resolve_left hr⟩

/-- Witness for claim C1 at role `mentor`, uid `u1`, path
`users/mentors/u1/f`. -/
theorem nonadmin_allowed_implies_prefix_and_uid_witness :
    ("mentor" : String) ≠ "admin" ∧
      isPathAllowedForRole "mentor" "u1" "users/mentors/u1/f" = true ∧
      ((allowedPrefixes "mentor" "u1").any (fun P => jsStartsWith "users/mentors/u1/f" P) = true ∧
        jsIncludes "users/mentors/u1/f" "u1" = true) :=
  ⟨by decide, by decide,
    nonadmin_allowed_implies_prefix_and_uid "mentor" "u1" "users/mentors/u1/f"
      (by decide) (by decide)⟩

/-- Claim C2: for every role `r` among student, faculty, mentor, startup,
every non-empty uid `u`, and every prefix `P` in `r`'s allowed prefix set
(role-specific prefixes union legacy prefixes), the path `P ++ u ++ "/x"`
is allowed; and in particular
`isPathAllowedForRole "student" "u1" "users/students/u1/resume.pdf"` is
true. -/
theorem role_prefix_with_uid_allowed (r u P : String) (hu : u ≠ "")
    (hr : r = "student" ∨ r = "faculty" ∨ r = "mentor" ∨ r = "startup")
    (hP : P ∈ allowedPrefixes r u) :
    isPathAllowedForRole r u (P ++ u ++ "/x") = true ∧
      isPathAllowedForRole "student" "u1" "users/students/u1/resume.pdf" = true := by
  refine ⟨(allowed_iff r u (P ++ u ++ "/x")).mpr
    ⟨?_, Or.inr (jsIncludes_append_mid P u "/x")⟩, by decide⟩
  apply any_of_mem _ _ P hP
  unfold jsStartsWith
  rw [ List.isPrefixOf_iff_prefix, String.data_append, String.data_append, List.append_assoc]
  exact List.prefix_append P.data (u.data ++ "/x".data)

/-- Witness for claim C2 at role `student`, uid `u1`, prefix
`projects/student-projects/`. -/
theorem role_prefix_with_uid_allowed_witness :
    ("u1" : String) ≠ "" ∧
      (("student" : String) = "student" ∨ ("student" : String) = "faculty" ∨
        ("student" : String) = "mentor" ∨ ("student" : String) = "startup") ∧
      "projects/student-projects/" ∈ allowedPrefixes "student" "u1" ∧
      (isPathAllowedForRole "student" "u1" ("projects/student-projects/" ++ "u1" ++ "/x") = true ∧
        isPathAllowedForRole "student" "u1" "users/students/u1/resume.pdf" = true) :=
  ⟨by decide, Or.inl rfl, by simp [allowedPrefixes, baseByRole, legacy],
    role_prefix_with_uid_allowed "student" "u1" "projects/student-projects/"
      (by decide) (Or.inl rfl) (by simp [allowedPrefixes, baseByRole, legacy])⟩

/-- Counterexample to claim C3 as stated: at uid `anyone` and path
`project-files/x`, `isPathAllowedForRole "admin" …` returns true although
the path starts with none of admin's three configured prefixes
(`users/admins/anyone/`, `projects/`, `users/`) — the legacy prefix
`project-files/` also matches for admin, so the stated equivalence is
false. -/
theorem admin_iff_three_prefixes_false :
    ¬ (∀ u p : String, isPathAllowedForRole "admin" u p = true ↔
        (jsStartsWith p ("users/admins/" ++ u ++ "/") = true ∨
         jsStartsWith p "projects/" = true ∨ jsStartsWith p "users/" = true)) := by
  intro h
  have h2 := (h "anyone" "project-files/x").mp (by decide)
  revert h2
  decide

/-- Claim C3 as amended: for role admin, every uid `u` and every path `p`
(whether or not `p` contains `u`), `isPathAllowedForRole "admin" u p`
returns true if and only if `p` starts with one of admin's configured
prefixes (`users/admins/{u}/`, `projects/`, `users/`) or one of the
shared legacy prefixes (`profile-pictures/{u}/`, `id-documents/{u}/`,
`enrollments/{u}/`, `project-files/`); in particular
`users/students/u9/x` is allowed to admin via the broad `users/`
prefix. -/
theorem admin_allowed_iff_prefix (u p : String) :
    isPathAllowedForRole "admin" u p = true ↔
      (jsStartsWith p ("users/admins/" ++ u ++ "/") = true ∨
       jsStartsWith p "projects/" = true ∨ jsStartsWith p "users/" = true ∨
       jsStartsWith p ("profile-pictures/" ++ u ++ "/") = true ∨
       jsStartsWith p ("id-documents/" ++ u ++ "/") = true ∨
       jsStartsWith p ("enrollments/" ++ u ++ "/") = true ∨
       jsStartsWith p "project-files/" = true) := by
  rw [allowed_iff]
  simp [allowedPrefixes, baseByRole, legacy, List.any_eq_true, or_assoc]

/-- Claim C4: for every role string `r` (known or not, admin included),
every non-empty uid `u` and every path `p` under the legacy prefix
`project-files/` that contains `u` as a substring,
`isPathAllowedForRole r u p` returns true. -/
theorem project_files_legacy_allowed (r u p : String) (hu : u ≠ "")
    (h1 : jsStartsWith p "project-files/" = true) (h2 : jsIncludes p u = true) :
    isPathAllowedForRole r u p = true := by
  apply (allowed_iff r u p).mpr
  refine ⟨any_of_mem _ _ "project-files/" ?_ h1, Or.inr h2⟩
  exact List.mem_append_right _ (by simp [legacy])

/-- Witness for claim C4 at the unknown role `ghost`, uid `u1`, path
`project-files/p9/u1/doc.pdf`. -/
theorem project_files_legacy_allowed_witness :
    ("u1" : String) ≠ "" ∧
      jsStartsWith "project-files/p9/u1/doc.pdf" "project-files/" = true ∧
      jsIncludes "project-files/p9/u1/doc.pdf" "u1" = true ∧
      isPathAllowedForRole "ghost" "u1" "project-files/p9/u1/doc.pdf" = true :=
  ⟨by decide, by decide, by decide,
    project_files_legacy_allowed "ghost" "u1" "project-files/p9/u1/doc.pdf"
      (by decide) (by decide) (by decide)⟩

/-- Claim C5: `isPathAllowedForRole "student" "u1"
"projects/research-projects/u1/file.pdf"` returns false —
`projects/research-projects/` is faculty's collection root, not in the
student prefix set, even though the path contains the uid. -/
theorem student_wrong_collection_root_denied :
    isPathAllowedForRole "student" "u1" "projects/research-projects/u1/file.pdf" = false := by
  decide

/-- Claim C6: the uid check is loose substring containment, not
path-segment matching: `isPathAllowedForRole "student" "u1"
"projects/student-projects/other123_u1/data"` returns true although `u1`
only occurs inside the segment `other123_u1`. -/
theorem loose_uid_substring_allowed :
    isPathAllowedForRole "student" "u1" "projects/student-projects/other123_u1/data" = true := by
  decide

/-- Claim C7: for every role string outside the five known roles, every
uid `u` and path `p`, `isPathAllowedForRole r u p` returns true if and
only if `p` starts with one of the four legacy prefixes and contains `u`
as a substring (the role-specific prefix set is empty for unknown
roles). -/
theorem unknown_role_allowed_iff (r u p : String)
    (h1 : r ≠ "student") (h2 : r ≠ "faculty") (h3 : r ≠ "mentor")
    (h4 : r ≠ "startup") (h5 : r ≠ "admin") :
    isPathAllowedForRole r u p = true ↔
      ((jsStartsWith p ("profile-pictures/" ++ u ++ "/") = true ∨
        jsStartsWith p ("id-documents/" ++ u ++ "/") = true ∨
        jsStartsWith p ("enrollments/" ++ u ++ "/") = true ∨
        jsStartsWith p "project-files/" = true) ∧ jsIncludes p u = true) := by
  rw [allowed_iff]
  simp [allowedPrefixes, baseByRole, legacy, h1, h2, h3, h4, h5, List.any_eq_true, or_assoc]

/-- Witness for claim C7 at role `ghost`, uid `u1`, path
`enrollments/u1/f`. -/
theorem unknown_role_allowed_iff_witness :
    ("ghost" : String) ≠ "student" ∧ ("ghost" : String) ≠ "faculty" ∧
      ("ghost" : String) ≠ "mentor" ∧ ("ghost" : String) ≠ "startup" ∧
      ("ghost" : String) ≠ "admin" ∧
      (isPathAllowedForRole "ghost" "u1" "enrollments/u1/f" = true ↔
        ((jsStartsWith "enrollments/u1/f" ("profile-pictures/" ++ "u1" ++ "/") = true ∨
          jsStartsWith "enrollments/u1/f" ("id-documents/" ++ "u1" ++ "/") = true ∨
          jsStartsWith "enrollments/u1/f" ("enrollments/" ++ "u1" ++ "/") = true ∨
          jsStartsWith "enrollments/u1/f" "project-files/" = true) ∧
          jsIncludes "enrollments/u1/f" "u1" = true)) :=
  ⟨by decide, by decide, by decide, by decide, by decide,
    unknown_role_allowed_iff "ghost" "u1" "enrollments/u1/f"
      (by decide) (by decide) (by decide) (by decide) (by decide)⟩

/-- Claim C8: in both the `POST /signed-url` and `POST /signed-url-read`
handlers, whenever `isPathAllowedForRole role uid objectPath` returns
false on a request that passes the earlier field checks, the response is
HTTP 403 with the handler's fixed error message and the storage signing
call is never invoked (`signedPath = none`). -/
theorem deny_responds_403_without_signing
    (bucketName objectPath contentType uid : Option String) (role : String)
    (hB : truthyStr bucketName = true) (hO : truthyStr objectPath = true)
    (hC : truthyStr contentType = true) (hU : truthyStr uid = true)
    (hDeny : isPathAllowedForRole role (uid.getD "") (objectPath.getD "") = false) :
    signedUrlHandler bucketName objectPath contentType uid role =
        { status := 403, error := some "Upload path not allowed for your role",
          signedPath := none } ∧
      signedUrlReadHandler bucketName objectPath uid role =
        { status := 403, error := some "Read path not allowed for your role",
          signedPath := none } := by
  unfold signedUrlHandler signedUrlReadHandler
  simp [hB, hO, hC, hU, hDeny]

/-- Witness for claim C8: a student requesting `secret/other.pdf` is
denied by both handlers without any signing. -/
theorem deny_responds_403_without_signing_witness :
    truthyStr (some "bkt") = true ∧ truthyStr (some "secret/other.pdf") = true ∧
      truthyStr (some "application/pdf") = true ∧ truthyStr (some "u1") = true ∧
      isPathAllowedForRole "student" ((some "u1").getD "") ((some "secret/other.pdf").getD "") = false ∧
      (signedUrlHandler (some "bkt") (some "secret/other.pdf") (some "application/pdf")
          (some "u1") "student" =
          { status := 403, error := some "Upload path not allowed for your role",
            signedPath := none } ∧
        signedUrlReadHandler (some "bkt") (some "secret/other.pdf") (some "u1") "student" =
          { status := 403, error := some "Read path not allowed for your role",
            signedPath := none }) :=
  ⟨by decide, by decide, by decide, by decide, by decide,
    deny_responds_403_without_signing (some "bkt") (some "secret/other.pdf")
      (some "application/pdf") (some "u1") "student"
      (by decide) (by decide) (by decide) (by decide) (by decide)⟩

/-- Claim C9: `isPathAllowedForRole` is a deterministic function of
exactly its three inputs — equal role, uid and object path give equal
results; the embedding is a pure function, mirroring the source, which
reads no state beyond its own literal prefix tables. -/
theorem isPathAllowedForRole_deterministic (r₁ u₁ p₁ r₂ u₂ p₂ : String)
    (hr : r₁ = r₂) (hu : u₁ = u₂) (hp : p₁ = p₂) :
    isPathAllowedForRole r₁ u₁ p₁ = isPathAllowedForRole r₂ u₂ p₂ := by
  rw [hr, hu, hp]

/-- Witness for claim C9 at a concrete triple of inputs. -/
theorem isPathAllowedForRole_deterministic_witness :
    isPathAllowedForRole "student" "u1" "users/students/u1/a" =
      isPathAllowedForRole "student" "u1" "users/students/u1/a" :=
  isPathAllowedForRole_deterministic "student" "u1" "users/students/u1/a"
    "student" "u1" "users/students/u1/a" rfl rfl rfl

/-- Claim C10: admin authorization dominates every other role — whenever
`isPathAllowedForRole r u p` returns true for any role string `r`, the
admin decision `isPathAllowedForRole "admin" u p` is also true: every
role-specific prefix is covered by admin's `users/` or `projects/`, the
legacy prefixes are shared, and admin skips the uid-containment check. -/
theorem admin_dominates (r u p : String)
    (h : isPathAllowedForRole r u p = true) :
    isPathAllowedForRole "admin" u p = true := by
  rcases (allowed_iff r u p).mp h with ⟨h1, -⟩
  apply (allowed_iff "admin" u p).mpr
  refine ⟨?_, Or.inl rfl⟩
  rcases List.any_eq_true.mp h1 with ⟨P, hmem, hpre⟩
  rcases List.mem_append.mp hmem with hbase | hleg
  · unfold baseByRole at hbase
    split_ifs at hbase with hs hf hm ht ha
    · simp only [List.mem_cons, List.not_mem_nil, or_false] at hbase
      rcases hbase with rfl | rfl
      · exact admin_any_of_users u p
          (startsWith_users_of_role_dir p "users/students/" u (by decide) hpre)
      · exact admin_any_of_projects u p
          (jsStartsWith_mono p "projects/" _ ( List.isPrefixOf_iff_prefix.mp (by decide)) hpre)
    · simp only [List.mem_cons, List.not_mem_nil, or_false] at hbase
      rcases hbase with rfl | rfl
      · exact admin_any_of_users u p
          (startsWith_users_of_role_dir p "users/faculty/" u (by decide) hpre)
      · exact admin_any_of_projects u p
          (jsStartsWith_mono p "projects/" _ ( List.isPrefixOf_iff_prefix.mp (by decide)) hpre)
    · simp only [List.mem_cons, List.not_mem_nil, or_false] at hbase
      rcases hbase with rfl
      exact admin_any_of_users u p
        (startsWith_users_of_role_dir p "users/mentors/" u (by decide) hpre)
    · simp only [List.mem_cons, List.not_mem_nil, or_false] at hbase
      rcases hbase with rfl | rfl
      · exact admin_any_of_users u p
          (startsWith_users_of_role_dir p "users/startups/" u (by decide) hpre)
      · exact admin_any_of_projects u p
          (jsStartsWith_mono p "projects/" _ ( List.isPrefixOf_iff_prefix.mp (by decide)) hpre)
    · refine any_of_mem _ _ P (List.mem_append_left _ ?_) hpre
      simpa [baseByRole] using hbase
    · exact absurd hbase (List.not_mem_nil P)
  · exact any_of_mem _ _ P (List.mem_append_right _ hleg) hpre

/-- Witness for claim C10: a path allowed to a mentor is allowed to an
admin with the same uid. -/
theorem admin_dominates_witness :
    isPathAllowedForRole "mentor" "u1" "users/mentors/u1/f" = true ∧
      isPathAllowedForRole "admin" "u1" "users/mentors/u1/f" = true :=
  ⟨by decide, admin_dominates "mentor" "u1" "users/mentors/u1/f" (by decide)⟩

end CollabUp
